import Mathlib

/-!
Verification development for the fault-search repository.

The repository has two Python entry points sharing the same normalization
logic: `build_fault_json.py` (CLI) and `gui_fault_converter.py` (GUI).
Each converts tabular fault-code data of two vendor schemas (Terberg,
Venti) into a list of normalized JSON records.

Shallow embedding conventions:
  - a raw cell is `Option String`: `none` models a missing cell (Python
    `None` or a pandas NaN, i.e. the values caught by `value is None` and
    `pd.isna(value)`), `some s` a present cell in its string form
    (pandas numeric dtype inference is outside the model; a numeric cell
    is represented by the string Python `str` would give it);
  - a row is a total lookup `String → Option String`, mirroring
    `row.get(col)` which yields `None` for an absent column;
  - a record is an association list `List (String × JValue)` built in the
    exact key order of the Python dict literal, with `search_terms`
    appended last exactly as the Python assignment appends a new key;
  - Python string truthiness (`if t`, `a or b`, `a and b`) is modelled by
    `pyTruthy` / `pyOr` on `Option String`;
  - `str.strip()` is modelled by `pyStrip`, stripping the ASCII
    whitespace characters recognized by `Char.isWhitespace` (space, tab,
    CR, LF); the wider Unicode whitespace set Python strips is outside
    the model;
  - `float(raw)` is modelled by `parsePyFloat`, an exact decimal parser
    into `ℚ` accepting the grammar `[sign] (digits [. digits] | . digits)
    [(e|E) [sign] digits]`; IEEE-754 rounding, `inf`/`nan` literals and
    digit-group underscores are outside the model, and `str(float)` for a
    non-integral value is modelled by `renderDecimal`, the plain
    positional decimal form without trailing zeros (Python switches to
    scientific notation only at extreme magnitudes, outside the model).
-/

/-- JSON value shape used by the records: null, a string, or the
string array used only by the `search_terms` field. -/
inductive JValue
  | null
  | str (s : String)
  | arr (xs : List String)
deriving DecidableEq

/-- a row of an already-parsed table: `row c` is the cell of column `c`,
`none` when the column is absent or the cell is missing. -/
abbrev Row := String → Option String

/-- a normalized record: association list in dict-literal key order. -/
abbrev Record := List (String × JValue)

/-- lookup of a record field by key, first occurrence. -/
def lookupField : Record → String → Option JValue
  | [], _ => none
  | (k, v) :: r, key => if k = key then some v else lookupField r key

/-- embed an optional string as a JSON value: `none` serializes as null. -/
def optStr : Option String → JValue
  | none => JValue.null
  | some s => JValue.str s

/-- model of Python `str.strip()`: drop leading and trailing whitespace
characters (ASCII space, tab, CR, LF). -/
def pyStrip (s : String) : String :=
  ⟨((s.data.dropWhile Char.isWhitespace).reverse.dropWhile Char.isWhitespace).reverse⟩

/-- Python truthiness of an optional string: `None` and `""` are falsy. -/
def pyTruthy : Option String → Bool
  | none => false
  | some s => !(s == "")

/-- model of Python `a or b` on optional strings: `a` when truthy, else `b`. -/
def pyOr (a b : Option String) : Option String :=
  if pyTruthy a then a else b

/-- numeric value of a digit list, most significant first. -/
def digitsToNat (ds : List Char) : ℕ :=
  ds.foldl (fun n c => 10 * n + (c.toNat - 48)) 0

/-- consume an optional leading sign; `true` means negative. -/
def splitSign : List Char → Bool × List Char
  | '+' :: rest => (false, rest)
  | '-' :: rest => (true, rest)
  | cs => (false, cs)

/-- parse the mantissa part of a float literal: `digits`, `digits.digits`,
`digits.` or `.digits`; the result is the digit value together with the
number of fraction digits (the decimal shift). -/
def parseMantissa (cs : List Char) : Option (ℕ × ℕ) :=
  let ip := cs.takeWhile Char.isDigit
  let rest := cs.dropWhile Char.isDigit
  match rest with
  | [] => if ip.isEmpty then none else some (digitsToNat ip, 0)
  | '.' :: fp =>
    if fp.all Char.isDigit ∧ (ip ≠ [] ∨ fp ≠ []) then
      some (digitsToNat (ip ++ fp), fp.length)
    else none
  | _ => none

/-- parse the exponent part: empty input means exponent 0; otherwise the
input starts with the `e`/`E` marker followed by an optionally signed
nonempty digit string. -/
def parseExp (cs : List Char) : Option ℤ :=
  match cs with
  | [] => some 0
  | _ :: ecs =>
    let se := splitSign ecs
    if se.2 ≠ [] ∧ se.2.all Char.isDigit then
      some (if se.1 then -(digitsToNat se.2 : ℤ) else (digitsToNat se.2 : ℤ))
    else none

/-- model of Python `float(s)` on an already-stripped string, as an exact
rational: `none` models a `ValueError`. -/
def parsePyFloat (s : String) : Option ℚ :=
  let sc := splitSign s.data
  let mant := sc.2.takeWhile (fun c => !(c = 'e' ∨ c = 'E'))
  let rest := sc.2.dropWhile (fun c => !(c = 'e' ∨ c = 'E'))
  match parseMantissa mant, parseExp rest with
  | some md, some e =>
    let sn : ℤ := if sc.1 then -(md.1 : ℤ) else (md.1 : ℤ)
    some (if 0 ≤ e then mkRat (sn * ((10 ^ e.toNat : ℕ) : ℤ)) (10 ^ md.2)
          else mkRat sn (10 ^ md.2 * 10 ^ (-e).toNat))
  | _, _ => none

/-- count how often the factor `p ≥ 2` divides `m`, with explicit fuel. -/
def countFactorAux (p : ℕ) : ℕ → ℕ → ℕ
  | 0, _ => 0
  | fuel + 1, m =>
    if 2 ≤ p ∧ m ≠ 0 ∧ m % p = 0 then countFactorAux p fuel (m / p) + 1 else 0

/-- multiplicity of the prime `p` in `n`. -/
def countFactor (p n : ℕ) : ℕ := countFactorAux p n n

/-- left-pad a digit string with zeros to length `k`. -/
def padLeftZeros (s : String) (k : ℕ) : String :=
  ⟨List.replicate (k - s.length) '0'⟩ ++ s

/-- model of Python `str(num)` for a non-integral float whose exact value
is the rational `q` (denominator a product of 2s and 5s, as every value
produced by `parsePyFloat` is): minimal positional decimal form. -/
def renderDecimal (q : ℚ) : String :=
  let k := max (countFactor 2 q.den) (countFactor 5 q.den)
  let a := q.num.natAbs * 10 ^ k / q.den
  (if q.num < 0 then "-" else "") ++ toString (a / 10 ^ k) ++ "." ++
    padLeftZeros (toString (a % 10 ^ k)) k

/-- model of Python `sorted({t for t in xs if t})`: keep the truthy
entries, deduplicate, sort ascending in codepoint-lexicographic order. -/
def pySortedSet (xs : List (Option String)) : List String :=
  List.insertionSort (fun a b => a ≤ b) (((xs.filterMap id).filter (fun t => t != "")).dedup)

namespace BuildFaultJson

/-- embedding of `clean` from build_fault_json.py: strip empty/NaN values
to None and stringify the rest. -/
def clean (value : Option String) : Option String :=
  match value with
  | none => none
  | some s =>
    let text := pyStrip s
    if text = "" then none else some text

/-- embedding of `normalize_alert_code` from build_fault_json.py:
normalize numeric-like codes to a compact string. -/
def normalize_alert_code (value : Option String) : Option String :=
  match clean value with
  | none => none
  | some raw =>
    match parsePyFloat raw with
    | none => some raw
    | some q => if q.den = 1 then some (toString q.num) else some (renderDecimal q)

/-- embedding of `join_labeled` from build_fault_json.py: the list
comprehension keeps a pair when `val and val.strip()` is truthy and emits
the stripped value after the label. -/
def join_labeled (fields : List (String × Option String)) : Option String :=
  let parts := fields.filterMap fun lv =>
    match lv.2 with
    | none => none
    | some v => if v ≠ "" ∧ pyStrip v ≠ "" then some (lv.1 ++ ": " ++ pyStrip v) else none
  if parts.isEmpty then none else some (String.intercalate "\n" parts)

/-- the local `code_display` variable of `load_terberg`: the SPN/FMI
display string, before the fallback to the raw fault code. -/
def terbergCodeDisplay (row : Row) : Option String :=
  let spn := clean (row "SPN")
  let fmi := clean (row "FMI")
  if pyTruthy spn && pyTruthy fmi then
    some ("SPN " ++ spn.getD "" ++ " FMI " ++ fmi.getD "")
  else if pyTruthy spn then
    some ("SPN " ++ spn.getD "")
  else
    none

/-- the record built for one row inside `load_terberg`, in dict-literal
key order with `search_terms` appended last. -/
def terbergRecord (row : Row) : Record :=
  let spn := clean (row "SPN")
  let fmi := clean (row "FMI")
  let foutcode := clean (row "Foutcode")
  let description := clean (row "Omschrijving")
  let code_display := terbergCodeDisplay row
  [("source", JValue.str "terberg"),
   ("alert_code", JValue.null),
   ("spn", optStr spn),
   ("fmi", optStr fmi),
   ("code_display", optStr (pyOr code_display foutcode)),
   ("title", optStr (pyOr foutcode code_display)),
   ("description", optStr description),
   ("severity", optStr (clean (row "Categorie"))),
   ("category", optStr (clean (row "Foutcodelijst"))),
   ("action", optStr (clean (row "Aangeraden actie"))),
   ("cause", optStr (clean (row "Oorzaak"))),
   ("effect", optStr (clean (row "Effect"))),
   ("notes", JValue.null),
   ("color", JValue.null),
   ("stop_reason", JValue.null),
   ("rationale", JValue.null),
   ("search_terms", JValue.arr (pySortedSet [code_display, foutcode, description]))]

/-- embedding of `load_terberg` over an already-parsed table (CSV reading
and encodings belong to the external collaborator). -/
def load_terberg (rows : List Row) : List Record :=
  rows.map terbergRecord

/-- the local `alert_code` variable of `load_venti`. -/
def ventiAlertCode (row : Row) : Option String :=
  normalize_alert_code (row "Alert Fault code #")

/-- the record built for one row inside `load_venti`, in dict-literal key
order with `search_terms` appended last; note the leading space in the
` Remote Operator Action` column name, exactly as in the source. -/
def ventiRecord (row : Row) : Record :=
  let alert_code := ventiAlertCode row
  let title := clean (row "Alert message")
  let description := clean (row "Meaning")
  let action := join_labeled
    [("AVC Action", clean (row "AVC Action")),
     ("Remote Operator Action", clean (row " Remote Operator Action")),
     ("Vehicle immediate response", clean (row "Vehicle immediate response")),
     ("Ops Troubleshoot Guide", clean (row "Ops Troubleshoot Guide"))]
  let notes := join_labeled
    [("Notes", clean (row "Notes")),
     ("Internal Comments", clean (row "Internal Comments"))]
  let cause := clean (row "Associated Reasons")
  let category := clean (row "Categorization")
  [("source", JValue.str "venti"),
   ("alert_code", optStr alert_code),
   ("spn", JValue.null),
   ("fmi", JValue.null),
   ("code_display", optStr alert_code),
   ("title", optStr (pyOr title alert_code)),
   ("description", optStr description),
   ("severity", optStr (clean (row "Severity"))),
   ("category", optStr category),
   ("action", optStr action),
   ("cause", optStr cause),
   ("effect", optStr (clean (row "Vehicle immediate response"))),
   ("notes", optStr notes),
   ("color", optStr (clean (row "Color"))),
   ("stop_reason", optStr (clean (row "Stop Reason"))),
   ("rationale", optStr (clean (row "Rationale"))),
   ("search_terms", JValue.arr (pySortedSet [alert_code, title, description, cause, category]))]

/-- embedding of `load_venti` over an already-parsed table. -/
def load_venti (rows : List Row) : List Record :=
  rows.map ventiRecord

/-- embedding of `build_dataset`: Terberg records then Venti records. -/
def build_dataset (terberg_rows venti_rows : List Row) : List Record :=
  load_terberg terberg_rows ++ load_venti venti_rows

end BuildFaultJson

namespace GuiFaultConverter

/-- embedding of `clean` from gui_fault_converter.py (a verbatim copy of
the CLI helper). -/
def clean (value : Option String) : Option String :=
  match value with
  | none => none
  | some s =>
    let text := pyStrip s
    if text = "" then none else some text

/-- embedding of `normalize_alert_code` from gui_fault_converter.py (a
verbatim copy of the CLI helper). -/
def normalize_alert_code (value : Option String) : Option String :=
  match clean value with
  | none => none
  | some raw =>
    match parsePyFloat raw with
    | none => some raw
    | some q => if q.den = 1 then some (toString q.num) else some (renderDecimal q)

/-- embedding of `join_labeled` from gui_fault_converter.py: unlike the
CLI copy, the comprehension keeps a pair whenever `val` alone is truthy
and emits the value without stripping it. -/
def join_labeled (fields : List (String × Option String)) : Option String :=
  let parts := fields.filterMap fun lv =>
    match lv.2 with
    | none => none
    | some v => if v ≠ "" then some (lv.1 ++ ": " ++ v) else none
  if parts.isEmpty then none else some (String.intercalate "\n" parts)

/-- an already-parsed table as the GUI sees it: the column list and the
rows. -/
structure DataFrame where
  columns : List String
  rows : List Row

/-- embedding of `is_terberg`: the Terberg column set is a subset of the
columns. -/
def is_terberg (df : DataFrame) : Bool :=
  ["SPN", "FMI", "Foutcode", "Omschrijving"].all fun c => df.columns.contains c

/-- embedding of `is_venti`: the column `Alert Fault code #` is present. -/
def is_venti (df : DataFrame) : Bool :=
  df.columns.contains "Alert Fault code #"

/-- the local `code_display` expression of `normalize_terberg` (the GUI
file computes it with a conditional expression rather than the CLI's
if/elif statement; both denote the same function). -/
def terbergCodeDisplay (row : Row) : Option String :=
  let spn := clean (row "SPN")
  let fmi := clean (row "FMI")
  if pyTruthy spn && pyTruthy fmi then
    some ("SPN " ++ spn.getD "" ++ " FMI " ++ fmi.getD "")
  else if pyTruthy spn then
    some ("SPN " ++ spn.getD "")
  else
    none

/-- the record built for one row inside `normalize_terberg`. -/
def terbergRecord (row : Row) : Record :=
  let spn := clean (row "SPN")
  let fmi := clean (row "FMI")
  let foutcode := clean (row "Foutcode")
  let description := clean (row "Omschrijving")
  let code_display := terbergCodeDisplay row
  [("source", JValue.str "terberg"),
   ("alert_code", JValue.null),
   ("spn", optStr spn),
   ("fmi", optStr fmi),
   ("code_display", optStr (pyOr code_display foutcode)),
   ("title", optStr (pyOr foutcode code_display)),
   ("description", optStr description),
   ("severity", optStr (clean (row "Categorie"))),
   ("category", optStr (clean (row "Foutcodelijst"))),
   ("action", optStr (clean (row "Aangeraden actie"))),
   ("cause", optStr (clean (row "Oorzaak"))),
   ("effect", optStr (clean (row "Effect"))),
   ("notes", JValue.null),
   ("color", JValue.null),
   ("stop_reason", JValue.null),
   ("rationale", JValue.null),
   ("search_terms", JValue.arr (pySortedSet [code_display, foutcode, description]))]

/-- embedding of `normalize_terberg`. -/
def normalize_terberg (rows : List Row) : List Record :=
  rows.map terbergRecord

/-- the local `alert_code` variable of `normalize_venti`. -/
def ventiAlertCode (row : Row) : Option String :=
  normalize_alert_code (row "Alert Fault code #")

/-- the record built for one row inside `normalize_venti`; it uses the
GUI copy of `join_labeled`. -/
def ventiRecord (row : Row) : Record :=
  let alert_code := ventiAlertCode row
  let title := clean (row "Alert message")
  let description := clean (row "Meaning")
  let action := join_labeled
    [("AVC Action", clean (row "AVC Action")),
     ("Remote Operator Action", clean (row " Remote Operator Action")),
     ("Vehicle immediate response", clean (row "Vehicle immediate response")),
     ("Ops Troubleshoot Guide", clean (row "Ops Troubleshoot Guide"))]
  let notes := join_labeled
    [("Notes", clean (row "Notes")),
     ("Internal Comments", clean (row "Internal Comments"))]
  let cause := clean (row "Associated Reasons")
  let category := clean (row "Categorization")
  [("source", JValue.str "venti"),
   ("alert_code", optStr alert_code),
   ("spn", JValue.null),
   ("fmi", JValue.null),
   ("code_display", optStr alert_code),
   ("title", optStr (pyOr title alert_code)),
   ("description", optStr description),
   ("severity", optStr (clean (row "Severity"))),
   ("category", optStr category),
   ("action", optStr action),
   ("cause", optStr cause),
   ("effect", optStr (clean (row "Vehicle immediate response"))),
   ("notes", optStr notes),
   ("color", optStr (clean (row "Color"))),
   ("stop_reason", optStr (clean (row "Stop Reason"))),
   ("rationale", optStr (clean (row "Rationale"))),
   ("search_terms", JValue.arr (pySortedSet [alert_code, title, description, cause, category]))]

/-- embedding of `normalize_venti`. -/
def normalize_venti (rows : List Row) : List Record :=
  rows.map ventiRecord

/-- embedding of `normalize_dataframe`: dispatch on the schema test, the
`ValueError` of the unrecognized case modelled as `Except.error` (the GUI
then shows the dialog and returns without writing any output). -/
def normalize_dataframe (df : DataFrame) : Except String (List Record) :=
  if is_terberg df then Except.ok (normalize_terberg df.rows)
  else if is_venti df then Except.ok (normalize_venti df.rows)
  else Except.error "CSV type not recognized (expected Terberg or Venti columns)."

end GuiFaultConverter

/-- the 17 field names of the normalized record, in serialization order. -/
def recordFieldNames : List String :=
  ["source", "alert_code", "spn", "fmi", "code_display", "title", "description",
   "severity", "category", "action", "cause", "effect", "notes", "color",
   "stop_reason", "rationale", "search_terms"]

/-- an optional string that is either absent or a nonempty, already
trimmed string — the shape of every value `clean` can return. -/
def cleanLike (v : Option String) : Prop :=
  ∀ s, v = some s → pyStrip s = s ∧ s ≠ ""

/-- concrete Terberg row used by witnesses (round-trip scenario of §8). -/
def terbergExampleRow : Row := fun c =>
  if c = "SPN" then some "110"
  else if c = "FMI" then some "2"
  else if c = "Foutcode" then some "E110"
  else if c = "Omschrijving" then some "Engine overheat"
  else if c = "Categorie" then some "Critical"
  else none

/-- concrete Venti row used by witnesses (scenario of §8). -/
def ventiExampleRow : Row := fun c =>
  if c = "Alert Fault code #" then some "12.0"
  else if c = "Alert message" then some "Brake fault"
  else if c = "AVC Action" then some "Stop vehicle"
  else if c = "Notes" then some "Check sensor"
  else none

/-- a row with every cell missing. -/
def emptyRow : Row := fun _ => none

/-- concrete data frames used by the schema-detection witnesses. -/
def terbergFrame : GuiFaultConverter.DataFrame :=
  ⟨["SPN", "FMI", "Foutcode", "Omschrijving"], [terbergExampleRow]⟩

/-- data frame with only the Venti marker column. -/
def ventiFrame : GuiFaultConverter.DataFrame :=
  ⟨["Alert Fault code #"], [ventiExampleRow]⟩

/-- data frame matching neither schema. -/
def unknownFrame : GuiFaultConverter.DataFrame :=
  ⟨["X", "Y"], [emptyRow]⟩

/-- data frame whose columns satisfy both schema tests at once. -/
def bothFrame : GuiFaultConverter.DataFrame :=
  ⟨["SPN", "FMI", "Foutcode", "Omschrijving", "Alert Fault code #"], [terbergExampleRow]⟩

/- ------------------------------------------------------------------ -/
/- Helper lemmas.                                                      -/
/- ------------------------------------------------------------------ -/

theorem dropWhile_head_false {α : Type _} (p : α → Bool) :
    ∀ (l : List α) (a : α) (t : List α), l.dropWhile p = a :: t → p a = false := by
  intro l
  induction l with
  | nil => intro a t h; simp [List.dropWhile] at h
  | cons x xs ih =>
    intro a t h
    rw [List.dropWhile_cons] at h
    cases hpx : p x
    · rw [hpx] at h
      simp only [Bool.false_eq_true, if_false] at h
      obtain ⟨h1, _⟩ := List.cons.inj h
      rw [← h1]
      exact hpx
    · rw [hpx] at h
      simp only [if_true] at h
      exact ih a t h

theorem dropWhile_idem {α : Type _} (p : α → Bool) (l : List α) :
    (l.dropWhile p).dropWhile p = l.dropWhile p := by
  cases h : l.dropWhile p with
  | nil => rfl
  | cons a t =>
    rw [List.dropWhile_cons, dropWhile_head_false p l a t h]
    simp

theorem dropWhile_suffix_decomp {α : Type _} (p : α → Bool) (l : List α) :
    ∃ t, l = t ++ l.dropWhile p := by
  induction l with
  | nil => exact ⟨[], rfl⟩
  | cons x xs ih =>
    rw [List.dropWhile_cons]
    cases hpx : p x
    · exact ⟨[], by simp⟩
    · obtain ⟨t, ht⟩ := ih
      exact ⟨x :: t, by simpa using ht⟩

theorem stripList_idem {α : Type _} (p : α → Bool) (l : List α) :
    (((((l.dropWhile p).reverse.dropWhile p).reverse).dropWhile p).reverse.dropWhile p).reverse
      = ((l.dropWhile p).reverse.dropWhile p).reverse := by
  set M := l.dropWhile p with hM
  set R := (M.reverse.dropWhile p).reverse with hR
  have hRdrop : R.dropWhile p = R := by
    cases hcase : R with
    | nil => rfl
    | cons a t =>
      obtain ⟨u, hu⟩ := dropWhile_suffix_decomp p M.reverse
      have hM2 : M = R ++ u.reverse := by
        have h2 := congrArg List.reverse hu
        simpa [hR] using h2
      have hMa : l.dropWhile p = a :: (t ++ u.reverse) := by
        rw [← hM, hM2, hcase]
        simp
      have hpa := dropWhile_head_false p l a (t ++ u.reverse) hMa
      rw [List.dropWhile_cons, hpa]
      simp
  have hRrev : R.reverse.dropWhile p = R.reverse := by
    rw [hR, List.reverse_reverse]
    exact dropWhile_idem p M.reverse
  rw [hRdrop, hRrev, List.reverse_reverse]

theorem pyStrip_idem (s : String) : pyStrip (pyStrip s) = pyStrip s :=
  congrArg String.mk (stripList_idem Char.isWhitespace s.data)

theorem pyStrip_empty : pyStrip "" = "" := rfl

theorem clean_some_spec (v : Option String) (s : String)
    (h : BuildFaultJson.clean v = some s) : pyStrip s = s ∧ s ≠ "" := by
  match v with
  | none => simp [BuildFaultJson.clean] at h
  | some s0 =>
    unfold BuildFaultJson.clean at h
    by_cases he : pyStrip s0 = ""
    · simp only [he, if_pos] at h
      exact absurd h (by simp)
    · simp only [if_neg he] at h
      obtain rfl := Option.some.inj h
      exact ⟨pyStrip_idem s0, he⟩

theorem cleanLike_clean (v : Option String) : cleanLike (BuildFaultJson.clean v) :=
  fun s hs => clean_some_spec v s hs

theorem cleanLike_none : cleanLike none := by
  intro s hs
  cases hs

theorem cleanLike_some (s : String) (h1 : pyStrip s = s) (h2 : s ≠ "") :
    cleanLike (some s) := by
  intro s2 hs2
  obtain rfl := Option.some.inj hs2
  exact ⟨h1, h2⟩

theorem gui_clean_eq : GuiFaultConverter.clean = BuildFaultJson.clean := rfl

theorem gui_alert_code_eq :
    GuiFaultConverter.normalize_alert_code = BuildFaultJson.normalize_alert_code := rfl

theorem join_parts_eq (fields : List (String × Option String))
    (h : ∀ p ∈ fields, cleanLike p.2) :
    (fields.filterMap fun lv =>
      match lv.2 with
      | none => none
      | some v => if v ≠ "" then some (lv.1 ++ ": " ++ v) else none) =
    (fields.filterMap fun lv =>
      match lv.2 with
      | none => none
      | some v => if v ≠ "" ∧ pyStrip v ≠ "" then some (lv.1 ++ ": " ++ pyStrip v) else none) := by
  induction fields with
  | nil => rfl
  | cons q rest ih =>
    have hq := h q (List.mem_cons_self q rest)
    have hrest : ∀ p ∈ rest, cleanLike p.2 :=
      fun p hp => h p (List.mem_cons_of_mem q hp)
    rw [List.filterMap_cons, List.filterMap_cons, ih hrest]
    match hv : q.2 with
    | none => rfl
    | some s =>
      obtain ⟨htrim, hne⟩ := hq s hv
      simp [htrim, hne]

theorem join_labeled_agree (fields : List (String × Option String))
    (h : ∀ p ∈ fields, cleanLike p.2) :
    GuiFaultConverter.join_labeled fields = BuildFaultJson.join_labeled fields := by
  unfold GuiFaultConverter.join_labeled BuildFaultJson.join_labeled
  rw [join_parts_eq fields h]

theorem join_parts_spec (fields : List (String × Option String)) :
    (fields.filterMap fun lv =>
      match lv.2 with
      | none => none
      | some v => if v ≠ "" ∧ pyStrip v ≠ "" then some (lv.1 ++ ": " ++ pyStrip v) else none) =
    (fields.filterMap fun lv =>
      match lv.2 with
      | none => none
      | some v => if pyStrip v = "" then none else some (lv.1 ++ ": " ++ pyStrip v)) := by
  induction fields with
  | nil => rfl
  | cons q rest ih =>
    rw [List.filterMap_cons, List.filterMap_cons, ih]
    match q.2 with
    | none => rfl
    | some v =>
      by_cases hv : pyStrip v = ""
      · simp [hv]
      · have hvne : v ≠ "" := by
          intro h0
          rw [h0, pyStrip_empty] at hv
          exact hv rfl
        simp [hv, hvne]

theorem pySortedSet_sorted (xs : List (Option String)) :
    List.Sorted (· < ·) (pySortedSet xs) := by
  have hs : List.Sorted (· ≤ ·) (pySortedSet xs) :=
    List.sorted_insertionSort (fun a b => a ≤ b) _
  have hn : (pySortedSet xs).Nodup :=
    (List.perm_insertionSort (fun a b => a ≤ b) _).nodup_iff.mpr (List.nodup_dedup _)
  exact List.Sorted.lt_of_le hs hn

theorem pySortedSet_nodup (xs : List (Option String)) : (pySortedSet xs).Nodup :=
  (List.perm_insertionSort (fun a b => a ≤ b) _).nodup_iff.mpr (List.nodup_dedup _)

theorem pySortedSet_mem (xs : List (Option String)) (t : String) :
    t ∈ pySortedSet xs ↔ some t ∈ xs ∧ t ≠ "" := by
  unfold pySortedSet
  rw [List.mem_insertionSort, List.mem_dedup, List.mem_filter, List.mem_filterMap]
  simp

theorem append_ne_empty_left (a b : String) (h : a ≠ "") : a ++ b ≠ "" := by
  intro hab
  apply h
  have h2 := congrArg String.length hab
  rw [String.length_append] at h2
  have h0 : ("" : String).length = 0 := rfl
  rw [h0] at h2
  have ha : a.length = 0 := by omega
  have hd : a.data.length = 0 := ha
  apply String.ext
  exact List.length_eq_zero.mp hd

theorem pyOr_none_left (b : Option String) : pyOr none b = b := rfl

theorem pyOr_some_left (x : String) (b : Option String) (h : x ≠ "") :
    pyOr (some x) b = some x := by
  unfold pyOr pyTruthy
  simp [h]

theorem rat_den_one_iff (q : ℚ) : q.den = 1 ↔ ∃ n : ℤ, q = (n : ℚ) := by
  constructor
  · intro h
    exact ⟨q.num, ((Rat.den_eq_one_iff q).mp h).symm⟩
  · rintro ⟨n, rfl⟩
    exact Rat.den_intCast n

/- ------------------------------------------------------------------ -/
/- Claim theorems.                                                     -/
/- ------------------------------------------------------------------ -/

/-- C8: clean is a total deterministic function returning null for a
missing value (Python None or NaN) or when trimming yields the empty
string, and otherwise returning the trimmed string form; the spec
examples hold, and the GUI file carries a copy equal to the CLI one. -/
theorem c8_clean_spec (v : Option String) :
    BuildFaultJson.clean none = none ∧
    (∀ s, v = some s → pyStrip s = "" → BuildFaultJson.clean v = none) ∧
    (∀ s, v = some s → pyStrip s ≠ "" → BuildFaultJson.clean v = some (pyStrip s)) ∧
    BuildFaultJson.clean (some "") = none ∧
    BuildFaultJson.clean (some "  ") = none ∧
    BuildFaultJson.clean (some " SPN 12 ") = some "SPN 12" ∧
    GuiFaultConverter.clean v = BuildFaultJson.clean v := by
  refine ⟨rfl, ?_, ?_, by decide, by decide, by decide, rfl⟩
  · rintro s rfl he
    unfold BuildFaultJson.clean
    simp [he]
  · rintro s rfl he
    unfold BuildFaultJson.clean
    simp [he]

/-- C8 witness: the clean specification applied at the spec example. -/
theorem c8_clean_witness :
    BuildFaultJson.clean (some " SPN 12 ") = some (pyStrip " SPN 12 ") :=
  (c8_clean_spec (some " SPN 12 ")).2.2.1 " SPN 12 " rfl (by decide)

/-- C1 counterexample: on the list [("A", " ")] whose single value is a
whitespace-only string (so empty after trimming), the claim demands the
pair be dropped and the result be null, but the GUI copy of join_labeled
keeps it and renders the value untrimmed; the CLI copy does drop it. -/
theorem c1_join_labeled_counterexample :
    GuiFaultConverter.join_labeled [("A", some " ")] = some "A:  " ∧
    BuildFaultJson.join_labeled [("A", some " ")] = none :=
  ⟨by decide, by decide⟩

/-- C1 (amended): the CLI join_labeled drops every pair whose value is
null or empty after trimming, renders each surviving pair as the label,
a colon-space, and the trimmed value, joins survivors with single
newlines preserving input order, and returns null when no pair survives;
the GUI copy agrees with the CLI copy on every list whose values are
null or nonempty already-trimmed strings, the shape of every value the
program passes (outputs of clean). -/
theorem c1_join_labeled_amended (fields : List (String × Option String)) :
    (BuildFaultJson.join_labeled fields =
      (let parts := fields.filterMap fun lv =>
        match lv.2 with
        | none => none
        | some v => if pyStrip v = "" then none else some (lv.1 ++ ": " ++ pyStrip v)
      if parts.isEmpty then none else some (String.intercalate "\n" parts))) ∧
    BuildFaultJson.join_labeled [("A", some "x"), ("B", none), ("C", some "y")] =
      some "A: x\nC: y" ∧
    BuildFaultJson.join_labeled [("A", none)] = none ∧
    ((∀ p ∈ fields, cleanLike p.2) →
      GuiFaultConverter.join_labeled fields = BuildFaultJson.join_labeled fields) := by
  refine ⟨?_, by decide, by decide, join_labeled_agree fields⟩
  show BuildFaultJson.join_labeled fields = _
  unfold BuildFaultJson.join_labeled
  rw [join_parts_spec fields]

/-- C1 witness: the amended equivalence applied at the spec example list,
whose values are clean-shaped. -/
theorem c1_join_labeled_witness :
    GuiFaultConverter.join_labeled [("A", some "x"), ("B", none), ("C", some "y")] =
      BuildFaultJson.join_labeled [("A", some "x"), ("B", none), ("C", some "y")] :=
  (c1_join_labeled_amended [("A", some "x"), ("B", none), ("C", some "y")]).2.2.2 (by
    intro p hp
    simp only [List.mem_cons, List.mem_singleton] at hp
    rcases hp with h | h | h | h
    · rw [h]; exact cleanLike_some "x" (by decide) (by decide)
    · rw [h]; exact cleanLike_none
    · rw [h]; exact cleanLike_some "y" (by decide) (by decide)
    · cases h)

/-- C2: normalize_alert_code applies clean first and propagates null; on
parse failure it returns the cleaned string unchanged; on a parse to a
mathematical integer it returns the integer decimal string; otherwise it
returns the decimal float form; and the spec examples evaluate as
claimed (float parsing and rendering per the exact-decimal model stated
in the header). -/
theorem c2_normalize_alert_code (v : Option String) :
    (BuildFaultJson.normalize_alert_code v = none ↔ BuildFaultJson.clean v = none) ∧
    (∀ raw, BuildFaultJson.clean v = some raw → parsePyFloat raw = none →
      BuildFaultJson.normalize_alert_code v = some raw) ∧
    (∀ raw q, BuildFaultJson.clean v = some raw → parsePyFloat raw = some q →
      (∃ n : ℤ, q = (n : ℚ)) →
      BuildFaultJson.normalize_alert_code v = some (toString q.num)) ∧
    (∀ raw q, BuildFaultJson.clean v = some raw → parsePyFloat raw = some q →
      (¬ ∃ n : ℤ, q = (n : ℚ)) →
      BuildFaultJson.normalize_alert_code v = some (renderDecimal q)) ∧
    BuildFaultJson.normalize_alert_code (some "5.0") = some "5" ∧
    BuildFaultJson.normalize_alert_code (some "5.5") = some "5.5" ∧
    BuildFaultJson.normalize_alert_code (some "ABC") = some "ABC" ∧
    BuildFaultJson.normalize_alert_code none = none := by
  have hnorm : ∀ w, BuildFaultJson.normalize_alert_code w =
      (match BuildFaultJson.clean w with
      | none => none
      | some raw =>
        match parsePyFloat raw with
        | none => some raw
        | some q => if q.den = 1 then some (toString q.num) else some (renderDecimal q)) :=
    fun _ => rfl
  have hnorm2 : ∀ raw, BuildFaultJson.clean v = some raw →
      BuildFaultJson.normalize_alert_code v =
        (match parsePyFloat raw with
        | none => some raw
        | some q => if q.den = 1 then some (toString q.num) else some (renderDecimal q)) := by
    intro raw hc
    rw [hnorm, hc]
  refine ⟨?_, ?_, ?_, ?_, by decide, by decide, by decide, rfl⟩
  · cases hc : BuildFaultJson.clean v with
    | none => rw [hnorm, hc]
    | some raw =>
      rw [hnorm2 raw hc]
      cases hp : parsePyFloat raw with
      | none => simp
      | some q => by_cases hd : q.den = 1 <;> simp [hd]
  · intro raw hc hp
    rw [hnorm2 raw hc, hp]
  · intro raw q hc hp hn
    have hd : q.den = 1 := (rat_den_one_iff q).mpr hn
    rw [hnorm2 raw hc, hp]
    simp [hd]
  · intro raw q hc hp hn
    have hd : q.den ≠ 1 := fun h => hn ((rat_den_one_iff q).mp h)
    rw [hnorm2 raw hc, hp]
    simp [hd]

/-- C2 witness: the integer-canonicalization case applied at the spec
scenario input, whose spreadsheet artifact form parses to the integer 12. -/
theorem c2_normalize_alert_code_witness :
    BuildFaultJson.normalize_alert_code (some " 12.0 ") = some (toString (mkRat 120 10).num) :=
  (c2_normalize_alert_code (some " 12.0 ")).2.2.1 "12.0" (mkRat 120 10) (by decide) (by decide)
    ⟨12, by decide⟩

/-- C3: every record of either normalizer carries all 17 fields of the
normalized-record table in serialization order, and each field the
record's source schema does not supply is present with an explicit null
value rather than omitted. -/
theorem c3_explicit_null_fields (rows : List Row) :
    (∀ r ∈ BuildFaultJson.load_terberg rows,
      r.map Prod.fst = recordFieldNames ∧
      lookupField r "alert_code" = some JValue.null ∧
      lookupField r "notes" = some JValue.null ∧
      lookupField r "color" = some JValue.null ∧
      lookupField r "stop_reason" = some JValue.null ∧
      lookupField r "rationale" = some JValue.null) ∧
    (∀ r ∈ BuildFaultJson.load_venti rows,
      r.map Prod.fst = recordFieldNames ∧
      lookupField r "spn" = some JValue.null ∧
      lookupField r "fmi" = some JValue.null) := by
  constructor
  · intro r hr
    obtain ⟨row, _, rfl⟩ := List.mem_map.1 hr
    exact ⟨rfl, rfl, rfl, rfl, rfl, rfl⟩
  · intro r hr
    obtain ⟨row, _, rfl⟩ := List.mem_map.1 hr
    exact ⟨rfl, rfl, rfl⟩

/-- C3 witness: field presence and explicit nulls on the concrete
example Terberg record. -/
theorem c3_explicit_null_fields_witness :
    (BuildFaultJson.terbergRecord terbergExampleRow).map Prod.fst = recordFieldNames ∧
    lookupField (BuildFaultJson.terbergRecord terbergExampleRow) "alert_code" = some JValue.null ∧
    lookupField (BuildFaultJson.terbergRecord terbergExampleRow) "notes" = some JValue.null ∧
    lookupField (BuildFaultJson.terbergRecord terbergExampleRow) "color" = some JValue.null ∧
    lookupField (BuildFaultJson.terbergRecord terbergExampleRow) "stop_reason" = some JValue.null ∧
    lookupField (BuildFaultJson.terbergRecord terbergExampleRow) "rationale" = some JValue.null :=
  (c3_explicit_null_fields [terbergExampleRow]).1 (BuildFaultJson.terbergRecord terbergExampleRow)
    (List.mem_map_of_mem BuildFaultJson.terbergRecord (List.mem_singleton.mpr rfl))

/-- C4: search_terms of each record is the deduplicated ascending-sorted
list of the truthy members of the fixed per-schema candidate set; it is
strictly sorted in codepoint-lexicographic order, duplicate-free, and a
string belongs to it exactly when it is a candidate and nonempty (a null
candidate is dropped with the filter, so no null, empty or duplicate
entry ever occurs). -/
theorem c4_search_terms (row : Row) :
    (let tcands := [BuildFaultJson.terbergCodeDisplay row,
                    BuildFaultJson.clean (row "Foutcode"),
                    BuildFaultJson.clean (row "Omschrijving")]
     lookupField (BuildFaultJson.terbergRecord row) "search_terms" =
        some (JValue.arr (pySortedSet tcands)) ∧
     List.Sorted (· < ·) (pySortedSet tcands) ∧
     (pySortedSet tcands).Nodup ∧
     ∀ t, t ∈ pySortedSet tcands ↔ (some t ∈ tcands ∧ t ≠ "")) ∧
    (let vcands := [BuildFaultJson.ventiAlertCode row,
                    BuildFaultJson.clean (row "Alert message"),
                    BuildFaultJson.clean (row "Meaning"),
                    BuildFaultJson.clean (row "Associated Reasons"),
                    BuildFaultJson.clean (row "Categorization")]
     lookupField (BuildFaultJson.ventiRecord row) "search_terms" =
        some (JValue.arr (pySortedSet vcands)) ∧
     List.Sorted (· < ·) (pySortedSet vcands) ∧
     (pySortedSet vcands).Nodup ∧
     ∀ t, t ∈ pySortedSet vcands ↔ (some t ∈ vcands ∧ t ≠ "")) :=
  ⟨⟨rfl, pySortedSet_sorted _, pySortedSet_nodup _, fun t => pySortedSet_mem _ t⟩,
   ⟨rfl, pySortedSet_sorted _, pySortedSet_nodup _, fun t => pySortedSet_mem _ t⟩⟩

/-- C5: code_display and title derivation chains: Terberg shows
"SPN {spn} FMI {fmi}", else "SPN {spn}", else the raw cleaned fault
code, and titles with the raw fault code falling back to the SPN
display; Venti shows the alert code and titles with the cleaned alert
message falling back to the alert code. -/
theorem c5_code_display_title (row : Row) :
    (∀ s f, BuildFaultJson.clean (row "SPN") = some s →
      BuildFaultJson.clean (row "FMI") = some f →
      lookupField (BuildFaultJson.terbergRecord row) "code_display" =
        some (JValue.str ("SPN " ++ s ++ " FMI " ++ f))) ∧
    (∀ s, BuildFaultJson.clean (row "SPN") = some s →
      BuildFaultJson.clean (row "FMI") = none →
      lookupField (BuildFaultJson.terbergRecord row) "code_display" =
        some (JValue.str ("SPN " ++ s))) ∧
    (BuildFaultJson.clean (row "SPN") = none →
      lookupField (BuildFaultJson.terbergRecord row) "code_display" =
        some (optStr (BuildFaultJson.clean (row "Foutcode")))) ∧
    (∀ fc, BuildFaultJson.clean (row "Foutcode") = some fc →
      lookupField (BuildFaultJson.terbergRecord row) "title" = some (JValue.str fc)) ∧
    (BuildFaultJson.clean (row "Foutcode") = none →
      lookupField (BuildFaultJson.terbergRecord row) "title" =
        some (optStr (BuildFaultJson.terbergCodeDisplay row))) ∧
    (lookupField (BuildFaultJson.ventiRecord row) "code_display" =
      some (optStr (BuildFaultJson.ventiAlertCode row))) ∧
    (∀ m, BuildFaultJson.clean (row "Alert message") = some m →
      lookupField (BuildFaultJson.ventiRecord row) "title" = some (JValue.str m)) ∧
    (BuildFaultJson.clean (row "Alert message") = none →
      lookupField (BuildFaultJson.ventiRecord row) "title" =
        some (optStr (BuildFaultJson.ventiAlertCode row))) := by
  have hcd : lookupField (BuildFaultJson.terbergRecord row) "code_display" =
      some (optStr (pyOr (BuildFaultJson.terbergCodeDisplay row)
        (BuildFaultJson.clean (row "Foutcode")))) := rfl
  have ht : lookupField (BuildFaultJson.terbergRecord row) "title" =
      some (optStr (pyOr (BuildFaultJson.clean (row "Foutcode"))
        (BuildFaultJson.terbergCodeDisplay row))) := rfl
  have hvt : lookupField (BuildFaultJson.ventiRecord row) "title" =
      some (optStr (pyOr (BuildFaultJson.clean (row "Alert message"))
        (BuildFaultJson.ventiAlertCode row))) := rfl
  refine ⟨?_, ?_, ?_, ?_, ?_, rfl, ?_, ?_⟩
  · intro s f hs hf
    have hsne := (clean_some_spec _ s hs).2
    have hfne := (clean_some_spec _ f hf).2
    have hdisp : BuildFaultJson.terbergCodeDisplay row = some ("SPN " ++ s ++ " FMI " ++ f) := by
      unfold BuildFaultJson.terbergCodeDisplay
      rw [hs, hf]
      simp [pyTruthy, hsne, hfne]
    have hne : ("SPN " ++ s ++ " FMI " ++ f) ≠ "" :=
      append_ne_empty_left _ _ (append_ne_empty_left _ _
        (append_ne_empty_left "SPN " s (by decide)))
    rw [hcd, hdisp, pyOr_some_left _ _ hne]
    rfl
  · intro s hs hf
    have hsne := (clean_some_spec _ s hs).2
    have hdisp : BuildFaultJson.terbergCodeDisplay row = some ("SPN " ++ s) := by
      unfold BuildFaultJson.terbergCodeDisplay
      rw [hs, hf]
      simp [pyTruthy, hsne]
    have hne : ("SPN " ++ s) ≠ "" := append_ne_empty_left "SPN " s (by decide)
    rw [hcd, hdisp, pyOr_some_left _ _ hne]
    rfl
  · intro hs
    have hdisp : BuildFaultJson.terbergCodeDisplay row = none := by
      unfold BuildFaultJson.terbergCodeDisplay
      rw [hs]
      simp [pyTruthy]
    rw [hcd, hdisp, pyOr_none_left]
  · intro fc hfc
    have hfcne := (clean_some_spec _ fc hfc).2
    rw [ht, hfc, pyOr_some_left _ _ hfcne]
    rfl
  · intro hfc
    rw [ht, hfc, pyOr_none_left]
  · intro m hm
    have hmne := (clean_some_spec _ m hm).2
    rw [hvt, hm, pyOr_some_left _ _ hmne]
    rfl
  · intro hm
    rw [hvt, hm, pyOr_none_left]

/-- C5 witness: the round-trip scenario row of §8 shows both SPN and FMI
present and yields the combined display string. -/
theorem c5_code_display_title_witness :
    lookupField (BuildFaultJson.terbergRecord terbergExampleRow) "code_display" =
      some (JValue.str "SPN 110 FMI 2") :=
  (c5_code_display_title terbergExampleRow).1 "110" "2" (by decide) (by decide)

/-- C6: build_dataset keeps every row of both inputs, its length is the
sum of the two input row counts, the first block is exactly the Terberg
records and the rest exactly the Venti records (so every Terberg-derived
record precedes every Venti-derived record), and even all-empty rows
still yield records. -/
theorem c6_build_dataset (t v : List Row) :
    (BuildFaultJson.build_dataset t v).length = t.length + v.length ∧
    (BuildFaultJson.build_dataset t v).take t.length = BuildFaultJson.load_terberg t ∧
    (BuildFaultJson.build_dataset t v).drop t.length = BuildFaultJson.load_venti v ∧
    (BuildFaultJson.build_dataset [emptyRow] [emptyRow]).length = 2 := by
  have hlen : t.length = (BuildFaultJson.load_terberg t).length := by
    simp [BuildFaultJson.load_terberg]
  refine ⟨?_, ?_, ?_, rfl⟩
  · simp [BuildFaultJson.build_dataset, BuildFaultJson.load_terberg, BuildFaultJson.load_venti]
  · simp only [BuildFaultJson.build_dataset]
    rw [hlen, List.take_left]
  · simp only [BuildFaultJson.build_dataset]
    rw [hlen, List.drop_left]

/-- C7: GUI schema detection applies the Terberg normalizer exactly when
the column set contains all four Terberg marker columns, otherwise the
Venti normalizer exactly when the exact column "Alert Fault code #" is
present, and otherwise yields the unrecognized-schema error so that no
output is produced. -/
theorem c7_schema_detection (df : GuiFaultConverter.DataFrame) :
    (GuiFaultConverter.is_terberg df = true ↔
      ∀ c ∈ ["SPN", "FMI", "Foutcode", "Omschrijving"], c ∈ df.columns) ∧
    (GuiFaultConverter.is_venti df = true ↔ "Alert Fault code #" ∈ df.columns) ∧
    (GuiFaultConverter.is_terberg df = true →
      GuiFaultConverter.normalize_dataframe df =
        Except.ok (GuiFaultConverter.normalize_terberg df.rows)) ∧
    (GuiFaultConverter.is_terberg df = false → GuiFaultConverter.is_venti df = true →
      GuiFaultConverter.normalize_dataframe df =
        Except.ok (GuiFaultConverter.normalize_venti df.rows)) ∧
    (GuiFaultConverter.is_terberg df = false → GuiFaultConverter.is_venti df = false →
      GuiFaultConverter.normalize_dataframe df =
        Except.error "CSV type not recognized (expected Terberg or Venti columns).") := by
  refine ⟨?_, ?_, ?_, ?_, ?_⟩
  · unfold GuiFaultConverter.is_terberg
    simp [List.all_eq_true]
  · unfold GuiFaultConverter.is_venti
    simp
  · intro h
    unfold GuiFaultConverter.normalize_dataframe
    simp [h]
  · intro h1 h2
    unfold GuiFaultConverter.normalize_dataframe
    simp [h1, h2]
  · intro h1 h2
    unfold GuiFaultConverter.normalize_dataframe
    simp [h1, h2]

/-- C7 witness: the three dispatch outcomes on concrete frames of each
kind. -/
theorem c7_schema_detection_witness :
    GuiFaultConverter.normalize_dataframe terbergFrame =
      Except.ok (GuiFaultConverter.normalize_terberg terbergFrame.rows) ∧
    GuiFaultConverter.normalize_dataframe ventiFrame =
      Except.ok (GuiFaultConverter.normalize_venti ventiFrame.rows) ∧
    GuiFaultConverter.normalize_dataframe unknownFrame =
      Except.error "CSV type not recognized (expected Terberg or Venti columns)." :=
  ⟨(c7_schema_detection terbergFrame).2.2.1 (by decide),
   (c7_schema_detection ventiFrame).2.2.2.1 (by decide) (by decide),
   (c7_schema_detection unknownFrame).2.2.2.2 (by decide) (by decide)⟩

theorem gui_venti_alert_eq :
    GuiFaultConverter.ventiAlertCode = BuildFaultJson.ventiAlertCode := rfl

theorem ventiRecord_agree (row : Row) :
    GuiFaultConverter.ventiRecord row = BuildFaultJson.ventiRecord row := by
  have hA : GuiFaultConverter.join_labeled
      [("AVC Action", BuildFaultJson.clean (row "AVC Action")),
       ("Remote Operator Action", BuildFaultJson.clean (row " Remote Operator Action")),
       ("Vehicle immediate response", BuildFaultJson.clean (row "Vehicle immediate response")),
       ("Ops Troubleshoot Guide", BuildFaultJson.clean (row "Ops Troubleshoot Guide"))] =
    BuildFaultJson.join_labeled
      [("AVC Action", BuildFaultJson.clean (row "AVC Action")),
       ("Remote Operator Action", BuildFaultJson.clean (row " Remote Operator Action")),
       ("Vehicle immediate response", BuildFaultJson.clean (row "Vehicle immediate response")),
       ("Ops Troubleshoot Guide", BuildFaultJson.clean (row "Ops Troubleshoot Guide"))] := by
    apply join_labeled_agree
    intro p hp
    simp only [List.mem_cons, List.not_mem_nil, or_false] at hp
    rcases hp with h | h | h | h <;> (rw [h]; exact cleanLike_clean _)
  have hN : GuiFaultConverter.join_labeled
      [("Notes", BuildFaultJson.clean (row "Notes")),
       ("Internal Comments", BuildFaultJson.clean (row "Internal Comments"))] =
    BuildFaultJson.join_labeled
      [("Notes", BuildFaultJson.clean (row "Notes")),
       ("Internal Comments", BuildFaultJson.clean (row "Internal Comments"))] := by
    apply join_labeled_agree
    intro p hp
    simp only [List.mem_cons, List.not_mem_nil, or_false] at hp
    rcases hp with h | h <;> (rw [h]; exact cleanLike_clean _)
  unfold GuiFaultConverter.ventiRecord BuildFaultJson.ventiRecord
  simp only [gui_clean_eq, gui_venti_alert_eq]
  rw [hA, hN]

/-- C9: on every already-parsed table, the CLI per-row normalizers and
the GUI per-row normalizers produce identical record sequences, despite
the GUI file carrying a join_labeled copy that does not re-trim its
arguments (every value passed to it is an output of clean, hence already
trimmed). -/
theorem c9_cli_gui_equivalence (rows : List Row) :
    GuiFaultConverter.normalize_terberg rows = BuildFaultJson.load_terberg rows ∧
    GuiFaultConverter.normalize_venti rows = BuildFaultJson.load_venti rows := by
  constructor
  · rfl
  · unfold GuiFaultConverter.normalize_venti BuildFaultJson.load_venti
    exact List.map_congr_left fun row _ => ventiRecord_agree row

/-- C10: when a data frame satisfies both schema tests at once, the GUI
dispatch applies the Terberg normalizer, never the Venti one. -/
theorem c10_terberg_precedence (df : GuiFaultConverter.DataFrame)
    (ht : GuiFaultConverter.is_terberg df = true)
    (hv : GuiFaultConverter.is_venti df = true) :
    GuiFaultConverter.normalize_dataframe df =
      Except.ok (GuiFaultConverter.normalize_terberg df.rows) := by
  have _hv := hv
  unfold GuiFaultConverter.normalize_dataframe
  simp [ht]

/-- C10 witness: the frame carrying both column sets dispatches to the
Terberg normalizer. -/
theorem c10_terberg_precedence_witness :
    GuiFaultConverter.normalize_dataframe bothFrame =
      Except.ok (GuiFaultConverter.normalize_terberg bothFrame.rows) :=
  c10_terberg_precedence bothFrame (by decide) (by decide)
